import Mathlib

set_option maxRecDepth 100000

/-!
# Verification of `script-rs` (src/main.rs)

A shallow embedding of the terminal-session recorder in `src/main.rs`:
the relay loop of `main`, the terminal-mode functions `tty_set_row` and
`tty_reset`, the `slave_name` out-parameter handling of `pty_fork`, and
the ordering of the setup steps of `main`.

Machine-level conventions: bytes are `Nat` (< 256 in practice, the proofs
do not depend on it), termios flag words are `Nat` bitmasks of 32 bits
(the width of `tcflag_t`), file contents and write streams are `List Nat`.
A fallible syscall result is `Except Unit α`.
-/

/-! ## The relay loop (main.rs lines 63-86)

Each iteration of `loop` in `main`:
  * allocates a fresh zeroed 256-byte buffer `buf` (line 64),
  * calls `select` on stdin and the pty master (line 69), `.unwrap()`,
  * if stdin is ready: `read(STDIN_FILENO, &mut buf)`; on `Err` the
    function returns; otherwise `write(master_fd, &buf)` writes the whole
    buffer, `.unwrap()` (lines 71-76),
  * if the master is ready: `read(master_fd, &mut buf)` overwrites the
    front of the SAME buffer; on `Err` the function returns; otherwise
    `write(STDOUT_FILENO, &buf)` then `write(script_fd, &buf)` write the
    whole buffer, each `.unwrap()` (lines 78-84).

The environment of one iteration records what the kernel answered to each
of those calls; the iteration itself is the pure function `relayIter`.
-/

/-- Buffer size of the relay loop: `let mut buf: [u8; 256]` (main.rs line 64). -/
def CHUNK : Nat := 256

/-- `read(fd, &mut buf)` returning `Ok(data.len())` stores `data` in the first
bytes of `buf` and leaves the rest of `buf` unchanged. -/
def writeIntoBuf (buf data : List Nat) : List Nat :=
  let d := data.take CHUNK
  d ++ buf.drop d.length

instance {ε α : Type _} [DecidableEq ε] [DecidableEq α] : DecidableEq (Except ε α) := fun x y =>
  match x, y with
  | Except.ok a, Except.ok b =>
    if h : a = b then Decidable.isTrue (congrArg Except.ok h)
    else Decidable.isFalse (fun hc => h (Except.ok.inj hc))
  | Except.error a, Except.error b =>
    if h : a = b then Decidable.isTrue (congrArg Except.error h)
    else Decidable.isFalse (fun hc => h (Except.error.inj hc))
  | Except.ok _ , Except.error _ => Decidable.isFalse (fun hc => Except.noConfusion hc)
  | Except.error _ , Except.ok _ => Decidable.isFalse (fun hc => Except.noConfusion hc)

/-- Kernel responses consumed by one iteration of the relay loop.
`selectOk` is whether `select` (line 69) succeeds; `stdinReady` /
`masterReady` are membership of the two fds in the ready set; the two
`Read` fields are the results of the two `read` calls (`Except.ok data`
with the bytes read, `Except.error ()` for a failed read); the three
`writeOk` fields are whether the corresponding `write` calls succeed. -/
structure IterEnv where
  selectOk : Bool
  stdinReady : Bool
  masterReady : Bool
  stdinRead : Except Unit (List Nat)
  masterRead : Except Unit (List Nat)
  writeMasterOk : Bool
  writeStdoutOk : Bool
  writeScriptOk : Bool
deriving DecidableEq, Repr

/-- How one iteration of the relay loop ends: `panicked` is an `.unwrap()`
on `Err` (process abort), `exited` is the `return` taken when a `read`
fails (main.rs lines 72-74 and 79-81), `continued` means the `loop` goes
around again. -/
inductive Outcome where
  | panicked
  | exited
  | continued
deriving DecidableEq, Repr

/-- Bytes an iteration appended to the three output streams (the pty
master, stdout, the transcript fd), together with how it ended. -/
structure IterResult where
  toMaster : List Nat
  toStdout : List Nat
  toScript : List Nat
  outcome : Outcome
deriving DecidableEq, Repr

/-- The `if in_fds.contains(master_fd)` block (main.rs lines 78-84), given
the buffer `buf` left by the stdin block and the bytes `toM` the stdin
block already wrote to the master this iteration. -/
def relayMasterBranch (env : IterEnv) (buf : List Nat) (toM : List Nat) : IterResult :=
  if env.masterReady then
    match env.masterRead with
    | Except.error _ => { toMaster := toM, toStdout := [], toScript := [], outcome := Outcome.exited }
    | Except.ok data =>
      let buf2 := writeIntoBuf buf data
      if env.writeStdoutOk then
        if env.writeScriptOk then
          { toMaster := toM, toStdout := buf2, toScript := buf2, outcome := Outcome.continued }
        else
          { toMaster := toM, toStdout := buf2, toScript := [], outcome := Outcome.panicked }
      else
        { toMaster := toM, toStdout := [], toScript := [], outcome := Outcome.panicked }
  else
    { toMaster := toM, toStdout := [], toScript := [], outcome := Outcome.continued }

/-- One full iteration of the relay loop of `main` (main.rs lines 63-85). -/
def relayIter (env : IterEnv) : IterResult :=
  let buf0 := List.replicate CHUNK 0
  if env.selectOk then
    if env.stdinReady then
      match env.stdinRead with
      | Except.error _ =>
        { toMaster := [], toStdout := [], toScript := [], outcome := Outcome.exited }
      | Except.ok data =>
        let buf1 := writeIntoBuf buf0 data
        if env.writeMasterOk then
          relayMasterBranch env buf1 buf1
        else
          { toMaster := [], toStdout := [], toScript := [], outcome := Outcome.panicked }
    else
      relayMasterBranch env buf0 []
  else
    { toMaster := [], toStdout := [], toScript := [], outcome := Outcome.panicked }

/-- Cumulative output streams of a run of the relay loop. -/
structure RunAcc where
  toMaster : List Nat
  toStdout : List Nat
  toScript : List Nat
deriving DecidableEq, Repr

/-- Run the relay loop against a list of per-iteration kernel responses,
accumulating the three output streams, until an iteration panics or exits
(or the responses run out while the loop is still running, in which case
the outcome is `continued`). -/
def relayRun : List IterEnv → RunAcc × Outcome
  | [] => ({ toMaster := [], toStdout := [], toScript := [] }, Outcome.continued)
  | env :: rest =>
    let r := relayIter env
    match r.outcome with
    | Outcome.continued =>
      let (acc, out) := relayRun rest
      ({ toMaster := r.toMaster ++ acc.toMaster
         toStdout := r.toStdout ++ acc.toStdout
         toScript := r.toScript ++ acc.toScript }, out)
    | o => ({ toMaster := r.toMaster, toStdout := r.toStdout, toScript := r.toScript }, o)

/-! ## Terminal attributes (main.rs lines 151-176)

`Termios` models `nix::sys::termios::Termios`: four 32-bit flag words
(`tcflag_t`) and the control-character array `c_cc`. Flag words are `Nat`
bitmasks; bit positions and mask values below are the Linux ones used by
the `nix`/`libc` crates on the build target. -/

structure Termios where
  input_flags : Nat
  output_flags : Nat
  control_flags : Nat
  local_flags : Nat
  control_chars : List Nat
deriving DecidableEq, Repr

/-- `SetArg` of `nix::sys::termios::tcsetattr`: when the change takes
effect. `TCSAFLUSH` drains queued output and discards unread input. -/
inductive TcSetArg where
  | TCSANOW
  | TCSADRAIN
  | TCSAFLUSH
deriving DecidableEq, Repr

/-- Linux `LocalFlags::ISIG` (0o000001). -/
def ISIG : Nat := 0o000001
/-- Linux `LocalFlags::ICANON` (0o000002). -/
def ICANON : Nat := 0o000002
/-- Linux `LocalFlags::ECHO` (0o000010). -/
def ECHO : Nat := 0o000010
/-- Linux `LocalFlags::IEXTEN` (0o100000). -/
def IEXTEN : Nat := 0o100000
/-- Linux `InputFlags::IGNBRK` (0o000001). -/
def IGNBRK : Nat := 0o000001
/-- Linux `InputFlags::BRKINT` (0o000002). -/
def BRKINT : Nat := 0o000002
/-- Linux `InputFlags::PARMRK` (0o000010). -/
def PARMRK : Nat := 0o000010
/-- Linux `InputFlags::INPCK` (0o000020). -/
def INPCK : Nat := 0o000020
/-- Linux `InputFlags::ISTRIP` (0o000040). -/
def ISTRIP : Nat := 0o000040
/-- Linux `InputFlags::INLCR` (0o000100). -/
def INLCR : Nat := 0o000100
/-- Linux `InputFlags::IGNCR` (0o000200). -/
def IGNCR : Nat := 0o000200
/-- Linux `InputFlags::ICRNL` (0o000400). -/
def ICRNL : Nat := 0o000400
/-- Linux `InputFlags::IXON` (0o002000). -/
def IXON : Nat := 0o002000
/-- Linux `OutputFlags::OPOST` (0o000001). -/
def OPOST : Nat := 0o000001
/-- Linux `libc::VMIN` index into `c_cc` (6). -/
def VMIN : Nat := 6
/-- Linux `libc::VTIME` index into `c_cc` (5). -/
def VTIME : Nat := 5
/-- Width of `tcflag_t` in bits. -/
def TCFLAG_BITS : Nat := 32

/-- `flags &= !mask` on a `tcflag_t`: keep the bits of `flags` outside
`mask` (complement taken within the 32-bit word). -/
def clearFlags (flags mask : Nat) : Nat :=
  flags &&& (mask ^^^ (2 ^ TCFLAG_BITS - 1))

/-- `tty_set_row(fd, prev_termios)` (main.rs lines 151-172), as a function
of the attributes currently on `fd` (the `tcgetattr` result, line 152).
Returns what it stores through `prev_termios` (a clone of the current
attributes, lines 153-155, `none` when no out-parameter was given), the
attributes it installs, and the `SetArg` of the installing `tcsetattr`
(line 171). -/
def tty_set_row (current : Termios) (prev_termios : Option Termios) :
    Option Termios × Termios × TcSetArg :=
  let prevOut := match prev_termios with
    | some _ => some current
    | none => none
  let t1 : Termios :=
    { current with
      local_flags := clearFlags current.local_flags (ICANON ||| ISIG ||| IEXTEN ||| ECHO) }
  let t2 : Termios :=
    { t1 with
      input_flags := clearFlags t1.input_flags
        (BRKINT ||| ICRNL ||| IGNBRK ||| IGNCR ||| INLCR ||| INPCK ||| ISTRIP ||| IXON ||| PARMRK) }
  let t3 : Termios := { t2 with output_flags := clearFlags t2.output_flags OPOST }
  let t4 : Termios :=
    { t3 with control_chars := (t3.control_chars.set VMIN 1).set VTIME 0 }
  (prevOut, t4, TcSetArg.TCSAFLUSH)

/-- `tty_reset(tty_origin)` (main.rs lines 174-176): `tcsetattr(STDIN,
TCSANOW, tty_origin)`. As a transformer of the terminal's attribute
state, installing a full attribute set replaces the state with the
snapshot; the second component records the `SetArg` used. -/
def tty_reset (tty_origin _current : Termios) : Termios × TcSetArg :=
  (tty_origin, TcSetArg.TCSANOW)

/-! ## `pty_fork` out-parameter handling (main.rs lines 98-110)

After `pty_master_open` returns the slave's name `slname`, `pty_fork`
runs `if slave_name.is_some() { *slave_name = Some(slname.clone()); }`.
This function is that statement as a function of the out-parameter's
value on entry. -/

/-- The `slave_name` out-parameter update in `pty_fork`
(main.rs lines 107-109). -/
def pty_fork_slave_name_update (slave_name : Option String) (slname : String) : Option String :=
  if slave_name.isSome then some slname else slave_name

/-- Initial value of `slave_name` in `main` (main.rs line 24:
`let mut slave_name = None;`). -/
def main_initial_slave_name : Option String := none

/-! ## Transcript path selection (main.rs lines 49-59)

`main` opens `Path::new("/tmp/script_tmp")`; it never reads
`std::env::args`, so the opened path is this constant whatever the
command line was. -/

/-- The transcript path `main` opens, as a function of the command-line
arguments (which the source never consults). -/
def transcript_path (_args : List String) : String := "/tmp/script_tmp"

/-- The `Mode` bits of the transcript `open` call (main.rs lines 52-57):
read/write for owner, group and others (0o666). -/
def transcript_open_mode : Nat := 0o666

/-! ## Setup sequence of `main` in the parent process (main.rs lines 13-63)

The parent-side statements of `main`, in source order, as an event list.
Only `setRaw` and `restoreAttrs` touch the real terminal's attributes
(`tcgetattr` reads them without mutating). `registerExitHook` is listed
as a possible event so its absence from `main` can be stated; the source
contains no `atexit`/hook registration of any kind. -/

inductive MainEvent where
  /-- `tcgetattr(STDIN_FILENO)` into `tty_origin` (line 20). -/
  | captureAttrs
  /-- `ioctl::tiocgwinsz(STDIN_FILENO, &mut ws)` (line 21). -/
  | getWinsize
  /-- `pty_fork(..)` (line 26). -/
  | ptyFork
  /-- `open("/tmp/script_tmp", O_WRONLY|O_CREAT|O_TRUNC, 0o666)` into
  `script_fd` (lines 49-59); on failure `.expect` aborts right here. -/
  | openTranscript
  /-- `tty_set_row(STDIN_FILENO, Some(&mut tty_origin))` (line 60). -/
  | setRaw
  /-- `tty_reset(&mut tty_origin)` (line 61). -/
  | restoreAttrs
  /-- registration of an exit-time hook (present in no line of main.rs). -/
  | registerExitHook
  /-- entry into the relay `loop` (line 63). -/
  | relayLoop
deriving DecidableEq, Repr

/-- The events of `main`'s parent path, in the order the source executes
them (main.rs lines 20, 21, 26, 49-59, 60, 61, 63). -/
def mainSetupEvents : List MainEvent :=
  [MainEvent.captureAttrs, MainEvent.getWinsize, MainEvent.ptyFork,
   MainEvent.openTranscript, MainEvent.setRaw, MainEvent.restoreAttrs,
   MainEvent.relayLoop]

/-- State of the real terminal during `main`: its current attributes and
the contents of the `tty_origin` variable. `tty_origin` is initialised by
`captureAttrs`; from then on `setRaw` overwrites it (through the
`Some(&mut tty_origin)` out-parameter) and `restoreAttrs` reads it. -/
structure TtyState where
  attrs : Termios
  tty_origin : Termios
deriving DecidableEq, Repr

/-- Effect of one `main` event on the terminal state, via the embedded
`tty_set_row` and `tty_reset`. Events that do not touch the terminal's
attributes leave the state unchanged. -/
def mainEventStep (s : TtyState) : MainEvent → TtyState
  | MainEvent.captureAttrs => { s with tty_origin := s.attrs }
  | MainEvent.setRaw =>
    let r := tty_set_row s.attrs (some s.tty_origin)
    { attrs := r.2.1, tty_origin := r.1.getD s.tty_origin }
  | MainEvent.restoreAttrs =>
    { s with attrs := (tty_reset s.tty_origin s.attrs).1 }
  | _ => s

/-- Run a list of `main` events from a terminal state. -/
def runMainEvents (s : TtyState) (es : List MainEvent) : TtyState :=
  es.foldl mainEventStep s

/-- The events `main` executes before entering the relay loop. -/
def preLoopEvents : List MainEvent :=
  mainSetupEvents.takeWhile (fun e => e ≠ MainEvent.relayLoop)

/-- The events `main` executes strictly before mutating the terminal with
`tty_set_row`; when the transcript `open` fails, `.expect` aborts the
process after a prefix of exactly these events. -/
def preRawEvents : List MainEvent :=
  mainSetupEvents.takeWhile (fun e => e ≠ MainEvent.setRaw)

/-! ## Concrete iteration environments used in closed statements -/

/-- stdin ready; `read` returns the 2 bytes `[104, 105]` ("hi"); every
other call succeeds; the master is not ready. -/
def stdinTwoByteEnv : IterEnv :=
  { selectOk := true, stdinReady := true, masterReady := false,
    stdinRead := Except.ok [104, 105], masterRead := Except.ok [],
    writeMasterOk := true, writeStdoutOk := true, writeScriptOk := true }

/-- master ready; `read` returns the 2 bytes `[104, 105]`; every other
call succeeds; stdin is not ready. -/
def masterTwoByteEnv : IterEnv :=
  { selectOk := true, stdinReady := false, masterReady := true,
    stdinRead := Except.ok [], masterRead := Except.ok [104, 105],
    writeMasterOk := true, writeStdoutOk := true, writeScriptOk := true }

/-- master ready; `read` succeeds with 0 bytes (end-of-stream); every
other call succeeds; stdin is not ready. -/
def masterEofEnv : IterEnv :=
  { selectOk := true, stdinReady := false, masterReady := true,
    stdinRead := Except.ok [], masterRead := Except.ok [],
    writeMasterOk := true, writeStdoutOk := true, writeScriptOk := true }

/-- stdin ready and its `read` fails; the master is not ready. -/
def stdinErrEnv : IterEnv :=
  { selectOk := true, stdinReady := true, masterReady := false,
    stdinRead := Except.error (), masterRead := Except.ok [],
    writeMasterOk := true, writeStdoutOk := true, writeScriptOk := true }

/-- A two-iteration session: the master delivers `[104, 105]`, then the
stdin read fails and the loop exits. -/
def sampleSessionEnvs : List IterEnv :=
  [{ selectOk := true, stdinReady := false, masterReady := true,
     stdinRead := Except.ok [], masterRead := Except.ok [104, 105],
     writeMasterOk := true, writeStdoutOk := true, writeScriptOk := true },
   { selectOk := true, stdinReady := true, masterReady := false,
     stdinRead := Except.error (), masterRead := Except.ok [],
     writeMasterOk := true, writeStdoutOk := true, writeScriptOk := true }]

/-! ## C1, C3, C4, C8, C9 -/

/-- C1: the claim says a successful `read` of n bytes forwards exactly
those n bytes. It does not: `write(fd, &buf)` writes the whole 256-byte
buffer, so a 2-byte read from stdin forwards 256 bytes (the 2 bytes plus
254 NULs) to the master, and a 2-byte read from the master forwards 256
bytes to stdout and to the transcript. -/
theorem relay_forwards_whole_buffer :
    (relayIter stdinTwoByteEnv).toMaster.length = 256 ∧
    (relayIter stdinTwoByteEnv).toMaster ≠ [104, 105] ∧
    (relayIter masterTwoByteEnv).toStdout.length = 256 ∧
    (relayIter masterTwoByteEnv).toStdout ≠ [104, 105] ∧
    (relayIter masterTwoByteEnv).toScript ≠ [104, 105] := by decide

/-- C3 counterexample: a zero-byte (end-of-stream) read on the master is
`Ok(0)`, not `Err`, so the iteration does not take the `return`; the loop
goes around again (after forwarding the zero-filled buffer). -/
theorem zero_byte_read_does_not_exit :
    (relayIter masterEofEnv).outcome = Outcome.continued ∧
    Outcome.continued ≠ Outcome.exited := by decide

/-- C3 amended: the loop exits, with no restart, as soon as a `read` on
stdin or on the master returns an error (when an intervening write to the
master succeeds; a failed write panics instead); a zero-byte end-of-stream
read does not exit. -/
theorem read_error_exits_loop (env : IterEnv)
    (hsel : env.selectOk = true) (hwm : env.writeMasterOk = true)
    (h : (env.stdinReady = true ∧ env.stdinRead = Except.error ()) ∨
         (env.masterReady = true ∧ env.masterRead = Except.error ())) :
    (relayIter env).outcome = Outcome.exited := by
  rcases env with ⟨sel, sr, mr, sread, mread, wm, wo, ws⟩
  simp only at hsel hwm h
  subst hsel; subst hwm
  cases sr <;> cases mr <;> cases sread <;> cases mread <;> cases wo <;> cases ws <;>
    simp_all [relayIter, relayMasterBranch]

/-- Witness for `read_error_exits_loop` at `stdinErrEnv`. -/
theorem read_error_exits_loop_witness :
    stdinErrEnv.selectOk = true ∧ stdinErrEnv.writeMasterOk = true ∧
    ((stdinErrEnv.stdinReady = true ∧ stdinErrEnv.stdinRead = Except.error ()) ∨
     (stdinErrEnv.masterReady = true ∧ stdinErrEnv.masterRead = Except.error ())) ∧
    (relayIter stdinErrEnv).outcome = Outcome.exited :=
  ⟨rfl, rfl, Or.inl ⟨rfl, rfl⟩,
    read_error_exits_loop stdinErrEnv rfl rfl (Or.inl ⟨rfl, rfl⟩)⟩

/-- C4 counterexample: with an explicit positional argument
`"session.log"` on the command line, the opened transcript path is still
`/tmp/script_tmp` — the source never reads `std::env::args`, and the
fixed path is absolute (under `/tmp`), not a filename in the current
working directory. -/
theorem transcript_path_ignores_argument :
    transcript_path ["session.log"] = "/tmp/script_tmp" ∧
    "/tmp/script_tmp" ≠ "session.log" := ⟨rfl, by decide⟩

/-- C4 amended: the transcript path is the fixed absolute path
`/tmp/script_tmp` whatever the command-line arguments are; no positional
argument is consulted and there is no default-in-current-directory
behaviour. -/
theorem transcript_path_constant (args : List String) :
    transcript_path args = "/tmp/script_tmp" := rfl

/-- C8: restoration is idempotent: `tty_reset` installs the snapshot with
`tcsetattr(TCSANOW, ..)`, so applying it twice leaves the terminal exactly
as applying it once. -/
theorem tty_reset_idempotent (snapshot st : Termios) :
    (tty_reset snapshot (tty_reset snapshot st).1).1 = (tty_reset snapshot st).1 := rfl

/-- C9: `pty_fork` stores the slave name only when the out-parameter is
already `Some` (`if slave_name.is_some()`), so an out-parameter that is
`None` on entry — as `main`'s is (line 24) — is still `None` on return. -/
theorem pty_fork_slave_name_none_preserved (slname : String) :
    pty_fork_slave_name_update main_initial_slave_name slname = none ∧
    main_initial_slave_name = none := ⟨rfl, rfl⟩

/-! ## C2 and C7: setup ordering -/

/-- A plausible original attribute set: ICANON, ISIG, ECHO, IEXTEN set in
the local flags, ICRNL and IXON in the input flags, OPOST in the output
flags, a 32-entry `c_cc`. -/
def sampleOrigTermios : Termios :=
  { input_flags := 0o2400, output_flags := 0o1, control_flags := 0o277,
    local_flags := 0o100013, control_chars := List.replicate 32 0 }

/-- C2: the claim says an exit-time hook is registered before raw mode and
the original snapshot is restored only at process exit, the terminal
staying raw during the relay loop. The source registers no hook at all,
and `main` calls `tty_reset` (line 61) immediately after `tty_set_row`
(line 60): whatever the original attributes, the terminal is back to them
— not raw — by the time the loop is entered, and raw attributes differ
from the original ones (shown on `sampleOrigTermios`). -/
theorem no_exit_hook_and_restore_before_loop :
    MainEvent.registerExitHook ∉ mainSetupEvents ∧
    (∀ t : Termios,
      (runMainEvents { attrs := t, tty_origin := t } preLoopEvents).attrs = t) ∧
    (tty_set_row sampleOrigTermios (some sampleOrigTermios)).2.1 ≠ sampleOrigTermios := by
  refine ⟨by decide, fun t => rfl, by decide⟩

/-- C7: in `main`'s source order the transcript `open` (lines 49-59, whose
`.expect` aborts on failure) precedes the only mutation of the real
terminal (`tty_set_row`, line 60): `mainSetupEvents` decomposes as the
events up to the raw switch — `openTranscript` among them — followed by
`setRaw`; and running every event before `setRaw` leaves the terminal's
attributes exactly as they started, whatever they were. -/
theorem transcript_open_before_raw_mutation (t : Termios) :
    mainSetupEvents =
      preRawEvents ++ [MainEvent.setRaw, MainEvent.restoreAttrs, MainEvent.relayLoop] ∧
    MainEvent.openTranscript ∈ preRawEvents ∧
    (runMainEvents { attrs := t, tty_origin := t } preRawEvents).attrs = t := by
  refine ⟨by decide, by decide, rfl⟩

/-! ## C5: tee fidelity -/

/-- In one iteration that does not panic, whatever was appended to stdout
was also appended to the transcript: the success path writes the same
buffer `buf2` to both, the other non-panicking paths write to neither. -/
theorem relayIter_tee (env : IterEnv)
    (h : (relayIter env).outcome ≠ Outcome.panicked) :
    (relayIter env).toStdout = (relayIter env).toScript := by
  rcases env with ⟨sel, sr, mr, sread, mread, wm, wo, ws⟩
  cases sel <;> cases sr <;> cases mr <;> cases sread <;> cases mread <;>
    cases wm <;> cases wo <;> cases ws <;>
    simp_all [relayIter, relayMasterBranch]

/-- C5: over a whole session that does not abort by panic (it ends by a
read failure, or is still running when the responses end), the stream
written to the transcript fd equals, byte for byte, the stream written to
standard output. -/
theorem relayRun_tee (envs : List IterEnv)
    (h : (relayRun envs).2 ≠ Outcome.panicked) :
    (relayRun envs).1.toStdout = (relayRun envs).1.toScript := by
  induction envs with
  | nil => rfl
  | cons env rest ih =>
    cases ho : (relayIter env).outcome with
    | panicked =>
      exact absurd (by simp [relayRun, ho]) h
    | exited =>
      have := relayIter_tee env (by simp [ho])
      simp [relayRun, ho, this]
    | continued =>
      have hiter := relayIter_tee env (by simp [ho])
      have hrest := ih (by simpa [relayRun, ho] using h)
      simp [relayRun, ho, hiter, hrest]

/-- Witness for `relayRun_tee` on the two-iteration `sampleSessionEnvs`. -/
theorem relayRun_tee_witness :
    (relayRun sampleSessionEnvs).2 ≠ Outcome.panicked ∧
    (relayRun sampleSessionEnvs).1.toStdout = (relayRun sampleSessionEnvs).1.toScript :=
  ⟨by decide, relayRun_tee sampleSessionEnvs (by decide)⟩

/-! ## C6: content of the raw-mode transition -/

/-- Clearing a mask from a 32-bit flag word leaves no bit of the mask set. -/
theorem clearFlags_land_self (x mask : Nat)
    (h : (mask ^^^ (2 ^ TCFLAG_BITS - 1)) &&& mask = 0) :
    clearFlags x mask &&& mask = 0 := by
  unfold clearFlags
  rw [Nat.land_assoc, h, Nat.and_zero]

/-- C6: `tty_set_row` first stores the current attributes into the
provided out-parameter unchanged, and installs — with `TCSAFLUSH`
(drain-and-discard) semantics — attributes in which ICANON, ISIG, IEXTEN
and ECHO are clear in the local flags, BRKINT, ICRNL, IGNBRK, IGNCR,
INLCR, INPCK, ISTRIP, IXON and PARMRK are clear in the input flags, OPOST
is clear in the output flags, and `c_cc[VMIN] = 1`, `c_cc[VTIME] = 0`. -/
theorem tty_set_row_raw_spec (t p : Termios) (h : t.control_chars.length = 32) :
    (tty_set_row t (some p)).1 = some t ∧
    (tty_set_row t (some p)).2.2 = TcSetArg.TCSAFLUSH ∧
    (tty_set_row t (some p)).2.1.local_flags &&& (ICANON ||| ISIG ||| IEXTEN ||| ECHO) = 0 ∧
    (tty_set_row t (some p)).2.1.input_flags &&&
      (BRKINT ||| ICRNL ||| IGNBRK ||| IGNCR ||| INLCR ||| INPCK ||| ISTRIP ||| IXON ||| PARMRK)
      = 0 ∧
    (tty_set_row t (some p)).2.1.output_flags &&& OPOST = 0 ∧
    (tty_set_row t (some p)).2.1.control_chars[VMIN]? = some 1 ∧
    (tty_set_row t (some p)).2.1.control_chars[VTIME]? = some 0 := by
  refine ⟨rfl, rfl, ?_, ?_, ?_, ?_, ?_⟩
  · exact clearFlags_land_self _ _ (by decide)
  · exact clearFlags_land_self _ _ (by decide)
  · exact clearFlags_land_self _ _ (by decide)
  · show ((t.control_chars.set VMIN 1).set VTIME 0)[VMIN]? = some 1
    rw [List.getElem?_set_ne (by decide)]
    exact List.getElem?_set_self (by simp [h]; decide)
  · show ((t.control_chars.set VMIN 1).set VTIME 0)[VTIME]? = some 0
    exact List.getElem?_set_self (by simp [h]; decide)

/-- Witness for `tty_set_row_raw_spec` at `sampleOrigTermios`. -/
theorem tty_set_row_raw_spec_witness :
    sampleOrigTermios.control_chars.length = 32 ∧
    ((tty_set_row sampleOrigTermios (some sampleOrigTermios)).1 = some sampleOrigTermios ∧
     (tty_set_row sampleOrigTermios (some sampleOrigTermios)).2.2 = TcSetArg.TCSAFLUSH ∧
     (tty_set_row sampleOrigTermios (some sampleOrigTermios)).2.1.local_flags &&&
       (ICANON ||| ISIG ||| IEXTEN ||| ECHO) = 0 ∧
     (tty_set_row sampleOrigTermios (some sampleOrigTermios)).2.1.input_flags &&&
       (BRKINT ||| ICRNL ||| IGNBRK ||| IGNCR ||| INLCR ||| INPCK ||| ISTRIP ||| IXON ||| PARMRK)
       = 0 ∧
     (tty_set_row sampleOrigTermios (some sampleOrigTermios)).2.1.output_flags &&& OPOST = 0 ∧
     (tty_set_row sampleOrigTermios (some sampleOrigTermios)).2.1.control_chars[VMIN]? = some 1 ∧
     (tty_set_row sampleOrigTermios (some sampleOrigTermios)).2.1.control_chars[VTIME]? = some 0) :=
  ⟨rfl, tty_set_row_raw_spec sampleOrigTermios sampleOrigTermios rfl⟩

/-! ## C10: what aborts the process vs. what ends the loop cleanly -/

/-- Whether a fallible read produced data. -/
def exceptOk : Except Unit (List Nat) → Bool
  | Except.ok _ => true
  | Except.error _ => false

/-- The iterations in which some `.unwrap()` fires: `select` failing, the
master write failing after a successful stdin read, or (once the stdin
block has not returned or panicked) the stdout or transcript write
failing after a successful master read. -/
def iterPanics (env : IterEnv) : Bool :=
  !env.selectOk ||
  (env.stdinReady && exceptOk env.stdinRead && !env.writeMasterOk) ||
  ((!env.stdinReady || (exceptOk env.stdinRead && env.writeMasterOk)) &&
    env.masterReady && exceptOk env.masterRead &&
    (!env.writeStdoutOk || !env.writeScriptOk))

/-- C10: an iteration ends in a process abort (panic) exactly when the
readiness wait fails or a reached write fails — never through the clean
`return` used for read failures, which is the distinct outcome
`Outcome.exited`. -/
theorem relay_panics_iff (env : IterEnv) :
    (relayIter env).outcome = Outcome.panicked ↔ iterPanics env = true := by
  rcases env with ⟨sel, sr, mr, sread, mread, wm, wo, ws⟩
  cases sel <;> cases sr <;> cases mr <;> cases sread <;> cases mread <;>
    cases wm <;> cases wo <;> cases ws <;>
    simp_all [relayIter, relayMasterBranch, iterPanics, exceptOk]
